import Mathlib

/-
Shallow embedding of the deppy dependency-injection engine (src/src/lib.rs).

Modelling choices, stated once:
* A Rust TypeId is a Nat.
* An erased instance (Arc of dyn Any) is an Erased value: its runtime type id
  together with an allocation identity.  Every factory invocation allocates a
  fresh identity, drawn from a counter threaded through the state; two
  instances are the same Arc allocation exactly when their identities agree.
* A user initializer registered for type key k boxes a value of that type, so
  the erased value it produces carries tid = k (Box of T under TypeId of T).
  Invoking it is modelled as allocating the fresh instance; which of the two
  registered closures ran (the synchronous initialize_fn or the asynchronous
  initialize_async_fn) is recorded in an invocation log.  For a registration
  made through add_async_service, initialize_fn is the blocking adapter
  (futures executor block_on around the same async initializer) and
  initialize_async_fn is the direct async closure; both construct the same
  value from the same state, so in the model they yield the same Erased and
  differ only in the log tag.
* The std HashMap is an association list: lookup returns the first binding,
  insert prepends after removing the old binding.
* RwLock acquisition (.read().ok() / .write().ok()) is modelled as always
  succeeding: this is the sequential, unpoisoned execution of the code.
* The family of ServiceScope values derived from one container is a list of
  scoped caches inside the state; a scope is named by its index.  All scopes
  share the registry maps and the singleton cache, exactly as ServiceScope's
  Arc fields share the container's.
* Rust panics (unwrap on None, todo!) are a PanicOr.panicked result.
-/

namespace Deppy

/-- Association-list model of std HashMap lookup: first binding wins. -/
def lookupA {α : Type} : List (Nat × α) → Nat → Option α
  | [], _ => none
  | p :: rest, k => if p.1 = k then some p.2 else lookupA rest k

/-- Association-list model of std HashMap insert: replaces any prior binding. -/
def insertA {α : Type} (l : List (Nat × α)) (k : Nat) (v : α) : List (Nat × α) :=
  (k, v) :: l.filter (fun p => p.1 != k)

/-- ServiceType (src/src/lib.rs:86-91): the lifetime tag of a registration. -/
inductive ServiceType
  | Singleton
  | Scoped
  | Transient
deriving DecidableEq

/-- ServiceInformation (src/src/lib.rs:111-116): lifetime tag plus whether an
initialize_async_fn is present (the closures themselves are modelled by the
resolution functions, see the header comment). -/
structure ServiceInformation where
  type_ : ServiceType
  hasAsync : Bool
deriving DecidableEq

/-- A type-erased shared instance (Arc of dyn Any + Send + Sync): its runtime
type id and its allocation identity. -/
structure Erased where
  tid : Nat
  inst : Nat
deriving DecidableEq

abbrev Cache := List (Nat × Erased)

/-- Which of a registration's two closures a resolution invoked:
initialize_fn (syncPath — for add_async_service registrations this is the
block_on blocking adapter) or initialize_async_fn (asyncPath). -/
inductive Adapter
  | syncPath
  | asyncPath
deriving DecidableEq

/-- The mutable world: the two frozen registry maps (service_info for the
container, scoped_service_info shared with every scope), the allocation
counter, the shared singleton cache, and the scoped cache of each scope
derived from the container. -/
structure State where
  service_info : List (Nat × ServiceInformation)
  scoped_service_info : List (Nat × ServiceInformation)
  next : Nat
  singletons : Cache
  scopes : List Cache
deriving DecidableEq

/-- Result of one resolution: the returned value, the state after it, and the
log of factory invocations it performed. -/
structure Out (α : Type) where
  res : α
  state : State
  log : List (Nat × Adapter)
deriving DecidableEq

/-- Result of an operation that may panic (Rust unwrap / todo!). -/
inductive PanicOr (α : Type)
  | panicked
  | ok (a : α)
deriving DecidableEq

/-- List indexing with the empty cache as default; total, like reading the
scoped field of the scope named by the index. -/
def nth : List Cache → Nat → Cache
  | [], _ => []
  | c :: _, 0 => c
  | _ :: rest, n + 1 => nth rest n

/-- Replace the cache of one scope; no-op on an absent index. -/
def setNth : List Cache → Nat → Cache → List Cache
  | [], _, _ => []
  | _ :: rest, 0, c => c :: rest
  | a :: rest, n + 1, c => a :: setNth rest n c

/-- The scoped cache of scope number i. -/
def getScope (s : State) (i : Nat) : Cache := nth s.scopes i

/-- ServiceCollection::get_singleton (src/src/lib.rs:126-141): read the
singleton cache; on a hit return the cached value; on a miss look the key up
in service_info, invoke its initialize_fn, insert the result into the
singleton cache and return it. -/
def get_singleton (s : State) (type_id : Nat) : Out (Option Erased) :=
  match lookupA s.singletons type_id with
  | some v => ⟨some v, s, []⟩
  | none =>
    match lookupA s.service_info type_id with
    | none => ⟨none, s, []⟩
    | some _information =>
      let value : Erased := ⟨type_id, s.next⟩
      ⟨some value,
       { s with next := s.next + 1,
                singletons := insertA s.singletons type_id value },
       [(type_id, Adapter.syncPath)]⟩

/-- ServiceCollection::get_service_by_type_id (src/src/lib.rs:147-154):
Singleton dispatches to get_singleton; every other lifetime invokes
initialize_fn and returns the fresh value without touching any cache. -/
def collection_get_service_by_type_id (s : State) (type_id : Nat) :
    Out (Option Erased) :=
  match lookupA s.service_info type_id with
  | none => ⟨none, s, []⟩
  | some info =>
    match info.type_ with
    | ServiceType.Singleton => get_singleton s type_id
    | _ =>
      ⟨some ⟨type_id, s.next⟩, { s with next := s.next + 1 },
       [(type_id, Adapter.syncPath)]⟩

/-- ServiceCollection::get_async_service_by_type_id (src/src/lib.rs:166-179):
Singleton dispatches to get_singleton (which runs initialize_fn, the blocking
adapter); other lifetimes invoke initialize_async_fn when present, otherwise
initialize_fn. -/
def collection_get_async_service_by_type_id (s : State) (type_id : Nat) :
    Out (Option Erased) :=
  match lookupA s.service_info type_id with
  | none => ⟨none, s, []⟩
  | some info =>
    match info.type_ with
    | ServiceType.Singleton => get_singleton s type_id
    | _ =>
      if info.hasAsync then
        ⟨some ⟨type_id, s.next⟩, { s with next := s.next + 1 },
         [(type_id, Adapter.asyncPath)]⟩
      else
        ⟨some ⟨type_id, s.next⟩, { s with next := s.next + 1 },
         [(type_id, Adapter.syncPath)]⟩

/-- ServiceScope::get_service (src/src/lib.rs:190-221), for the scope named i.
Transient returns a fresh value at once (early return, no cache read or
write).  Singleton reads the shared singleton cache, Scoped reads this
scope's own cache; a hit is returned as is, a miss invokes initialize_fn
(looked up in scoped_service_info) and inserts into the tier that missed. -/
def scope_get_service (s : State) (i : Nat) (type_id : Nat)
    (type_ : ServiceType) : Out (Option Erased) :=
  match type_ with
  | ServiceType.Transient =>
    match lookupA s.scoped_service_info type_id with
    | none => ⟨none, s, []⟩
    | some _ =>
      ⟨some ⟨type_id, s.next⟩, { s with next := s.next + 1 },
       [(type_id, Adapter.syncPath)]⟩
  | ServiceType.Singleton =>
    match lookupA s.singletons type_id with
    | some v => ⟨some v, s, []⟩
    | none =>
      match lookupA s.scoped_service_info type_id with
      | none => ⟨none, s, []⟩
      | some _information =>
        let value : Erased := ⟨type_id, s.next⟩
        ⟨some value,
         { s with next := s.next + 1,
                  singletons := insertA s.singletons type_id value },
         [(type_id, Adapter.syncPath)]⟩
  | ServiceType.Scoped =>
    match lookupA (getScope s i) type_id with
    | some v => ⟨some v, s, []⟩
    | none =>
      match lookupA s.scoped_service_info type_id with
      | none => ⟨none, s, []⟩
      | some _information =>
        let value : Erased := ⟨type_id, s.next⟩
        ⟨some value,
         { s with next := s.next + 1,
                  scopes := setNth s.scopes i
                    (insertA (getScope s i) type_id value) },
         [(type_id, Adapter.syncPath)]⟩

/-- ServiceScope::get_async_service (src/src/lib.rs:223-256).  Identical cache
discipline to scope_get_service; its Transient early return invokes
initialize_fn (line 232 of the source — not the async closure), while a
Singleton or Scoped miss invokes initialize_async_fn when present and
initialize_fn otherwise. -/
def scope_get_async_service (s : State) (i : Nat) (type_id : Nat)
    (type_ : ServiceType) : Out (Option Erased) :=
  match type_ with
  | ServiceType.Transient =>
    match lookupA s.scoped_service_info type_id with
    | none => ⟨none, s, []⟩
    | some _ =>
      ⟨some ⟨type_id, s.next⟩, { s with next := s.next + 1 },
       [(type_id, Adapter.syncPath)]⟩
  | ServiceType.Singleton =>
    match lookupA s.singletons type_id with
    | some v => ⟨some v, s, []⟩
    | none =>
      match lookupA s.scoped_service_info type_id with
      | none => ⟨none, s, []⟩
      | some information =>
        let value : Erased := ⟨type_id, s.next⟩
        let tag := if information.hasAsync then Adapter.asyncPath
                   else Adapter.syncPath
        ⟨some value,
         { s with next := s.next + 1,
                  singletons := insertA s.singletons type_id value },
         [(type_id, tag)]⟩
  | ServiceType.Scoped =>
    match lookupA (getScope s i) type_id with
    | some v => ⟨some v, s, []⟩
    | none =>
      match lookupA s.scoped_service_info type_id with
      | none => ⟨none, s, []⟩
      | some information =>
        let value : Erased := ⟨type_id, s.next⟩
        let tag := if information.hasAsync then Adapter.asyncPath
                   else Adapter.syncPath
        ⟨some value,
         { s with next := s.next + 1,
                  scopes := setNth s.scopes i
                    (insertA (getScope s i) type_id value) },
         [(type_id, tag)]⟩

/-- ServiceScope::get_service_by_type_id (src/src/lib.rs:270-278): look the
key up in the scope's registry map and dispatch on its lifetime. -/
def scope_get_service_by_type_id (s : State) (i : Nat) (type_id : Nat) :
    Out (Option Erased) :=
  match lookupA s.scoped_service_info type_id with
  | some info => scope_get_service s i type_id info.type_
  | none => ⟨none, s, []⟩

/-- ServiceScope::get_async_service_by_type_id (src/src/lib.rs:290-302). -/
def scope_get_async_service_by_type_id (s : State) (i : Nat) (type_id : Nat) :
    Out (Option Erased) :=
  match lookupA s.scoped_service_info type_id with
  | some info => scope_get_async_service s i type_id info.type_
  | none => ⟨none, s, []⟩

/-- Arc::downcast (used at src/src/lib.rs:24 and 50): succeeds exactly when
the stored runtime type id is the requested one. -/
def downcast (t : Nat) (e : Erased) : Option Nat :=
  if e.tid = t then some e.inst else none

/-- ServiceHandler::get_service (src/src/lib.rs:18-26) on the container:
resolve by type id, then downcast; both a missing registration and a failed
downcast collapse to none. -/
def collection_get_service (s : State) (t : Nat) : Out (Option Nat) :=
  let o := collection_get_service_by_type_id s t
  ⟨o.res.bind (downcast t), o.state, o.log⟩

/-- ServiceHandler::get_required_service (src/src/lib.rs:28-33) on the
container: unwrap of the optional result; None panics. -/
def collection_get_required_service (s : State) (t : Nat) : Out (PanicOr Nat) :=
  let o := collection_get_service s t
  ⟨match o.res with
   | some v => PanicOr.ok v
   | none => PanicOr.panicked, o.state, o.log⟩

/-- ServiceHandler::get_service (src/src/lib.rs:18-26) on a scope. -/
def scope_get_service_typed (s : State) (i t : Nat) : Out (Option Nat) :=
  let o := scope_get_service_by_type_id s i t
  ⟨o.res.bind (downcast t), o.state, o.log⟩

/-- ServiceHandler::get_required_service (src/src/lib.rs:28-33) on a scope. -/
def scope_get_required_service (s : State) (i t : Nat) : Out (PanicOr Nat) :=
  let o := scope_get_service_typed s i t
  ⟨match o.res with
   | some v => PanicOr.ok v
   | none => PanicOr.panicked, o.state, o.log⟩

/-- ServiceHandlerAsync::get_async_service (src/src/lib.rs:43-52) on the
container. -/
def collection_get_async_service_typed (s : State) (t : Nat) :
    Out (Option Nat) :=
  let o := collection_get_async_service_by_type_id s t
  ⟨o.res.bind (downcast t), o.state, o.log⟩

/-- ServiceHandlerAsync::get_async_service (src/src/lib.rs:43-52) on a
scope. -/
def scope_get_async_service_typed (s : State) (i t : Nat) : Out (Option Nat) :=
  let o := scope_get_async_service_by_type_id s i t
  ⟨o.res.bind (downcast t), o.state, o.log⟩

/-- ServiceCollection::create_scope (src/src/lib.rs:156-161) via
ServiceScope::create (src/src/lib.rs:258-264): the new scope shares the
registry and the singleton cache and owns a fresh empty scoped cache; the
model returns its index. -/
def create_scope (s : State) : Nat × State :=
  (s.scopes.length, { s with scopes := s.scopes ++ [[]] })

/-- ServiceScope::create_scope (src/src/lib.rs:280-285): the whole body is
a todo! invocation, which panics; no scope is ever produced. -/
def scope_create_scope (_s : State) (_i : Nat) : PanicOr Nat :=
  PanicOr.panicked

/-- ServiceCollectionBuilder (src/src/lib.rs:325-329). -/
structure ServiceCollectionBuilder where
  services : List (Nat × ServiceInformation)
  scoped_services : List (Nat × ServiceInformation)
deriving DecidableEq

/-- ServiceCollectionBuilder::default(). -/
def emptyBuilder : ServiceCollectionBuilder := ⟨[], []⟩

/-- ServiceCollectionBuilder::add_service (src/src/lib.rs:331-360): inserts a
synchronous registration for the key into both registry maps. -/
def add_service (b : ServiceCollectionBuilder) (t : Nat)
    (type_ : ServiceType) : ServiceCollectionBuilder :=
  { services := insertA b.services t ⟨type_, false⟩,
    scoped_services := insertA b.scoped_services t ⟨type_, false⟩ }

/-- ServiceCollectionBuilder::add_async_service (src/src/lib.rs:382-421):
inserts, into both registry maps, a registration whose initialize_fn is the
blocking adapter and whose initialize_async_fn is the async closure. -/
def add_async_service (b : ServiceCollectionBuilder) (t : Nat)
    (type_ : ServiceType) : ServiceCollectionBuilder :=
  { services := insertA b.services t ⟨type_, true⟩,
    scoped_services := insertA b.scoped_services t ⟨type_, true⟩ }

/-- ServiceCollectionBuilder::add_singleton (src/src/lib.rs:362-364). -/
def add_singleton (b : ServiceCollectionBuilder) (t : Nat) :
    ServiceCollectionBuilder :=
  add_service b t ServiceType.Singleton

/-- ServiceCollectionBuilder::add_scoped (src/src/lib.rs:366-368). -/
def add_scoped (b : ServiceCollectionBuilder) (t : Nat) :
    ServiceCollectionBuilder :=
  add_service b t ServiceType.Scoped

/-- ServiceCollectionBuilder::add_transient (src/src/lib.rs:370-372). -/
def add_transient (b : ServiceCollectionBuilder) (t : Nat) :
    ServiceCollectionBuilder :=
  add_service b t ServiceType.Transient

/-- ServiceCollectionBuilder::build (src/src/lib.rs:374-380): freeze both
registry maps, allocate an empty singleton cache; no scopes exist yet. -/
def build (b : ServiceCollectionBuilder) : State :=
  { service_info := b.services,
    scoped_service_info := b.scoped_services,
    next := 0,
    singletons := [],
    scopes := [] }

/-- A resolution entry point: container or scope number i, sync or async. -/
inductive Entry
  | cSync
  | cAsync
  | sSync (i : Nat)
  | sAsync (i : Nat)
deriving DecidableEq

/-- Resolve a type key through the chosen entry point. -/
def resolveE (e : Entry) (s : State) (t : Nat) : Out (Option Erased) :=
  match e with
  | Entry.cSync => collection_get_service_by_type_id s t
  | Entry.cAsync => collection_get_async_service_by_type_id s t
  | Entry.sSync i => scope_get_service_by_type_id s i t
  | Entry.sAsync i => scope_get_async_service_by_type_id s i t

/-- One observable operation on the built container and its scopes. -/
inductive Op
  | resolve (e : Entry) (t : Nat)
  | newScope
deriving DecidableEq

/-- The state after one operation. -/
def applyOp (s : State) (op : Op) : State :=
  match op with
  | Op.resolve e t => (resolveE e s t).state
  | Op.newScope => (create_scope s).2

/-- The state after a sequence of operations. -/
def run (s : State) (ops : List Op) : State := ops.foldl applyOp s

/-- The key is registered with Transient lifetime in the container's
registry map. -/
def transientKey (s : State) (t : Nat) : Prop :=
  ∃ info, lookupA s.service_info t = some info ∧
    info.type_ = ServiceType.Transient

/-- No transient-registered key occurs as a key of the singleton cache or of
any scope's cache. -/
def cachesOk (s : State) : Prop :=
  (∀ t, (lookupA s.singletons t).isSome = true → ¬ transientKey s t) ∧
  (∀ i t, (lookupA (getScope s i) t).isSome = true → ¬ transientKey s t)

/-! Basic lemmas about the association-list and scope-list operations. -/

theorem lookupA_nil {α : Type} (k : Nat) :
    lookupA ([] : List (Nat × α)) k = none := rfl

theorem lookupA_insertA_self {α : Type} (l : List (Nat × α)) (k : Nat)
    (v : α) : lookupA (insertA l k v) k = some v := by
  simp [lookupA, insertA]

theorem lookupA_filter_ne {α : Type} (l : List (Nat × α)) (k t : Nat)
    (h : t ≠ k) :
    lookupA (l.filter (fun p => p.1 != k)) t = lookupA l t := by
  induction l with
  | nil => rfl
  | cons a rest ih =>
    rcases eq_or_ne a.1 k with hk | hk
    · have hb : (a.1 != k) = false := by simp [hk]
      have ht : ¬ (a.1 = t) := fun e => h (e.symm.trans hk)
      simp [List.filter, hb, lookupA, ht, ih]
    · have hb : (a.1 != k) = true := by simp [hk]
      simp [List.filter, hb, lookupA, ih]

theorem lookupA_insertA_ne {α : Type} (l : List (Nat × α)) (k t : Nat)
    (v : α) (h : t ≠ k) :
    lookupA (insertA l k v) t = lookupA l t := by
  have hb : ¬ (((k, v) : Nat × α).1 = t) := fun e => h (Eq.symm e)
  show (if ((k, v) : Nat × α).1 = t then some ((k, v) : Nat × α).2
        else lookupA (l.filter (fun p => p.1 != k)) t) = lookupA l t
  rw [if_neg hb]
  exact lookupA_filter_ne l k t h

theorem lookupA_insertA_isSome {α : Type} (l : List (Nat × α)) (k t : Nat)
    (v : α) (h : (lookupA (insertA l k v) t).isSome = true) :
    t = k ∨ (lookupA l t).isSome = true := by
  by_cases ht : t = k
  · exact Or.inl ht
  · right; rwa [lookupA_insertA_ne l k t v ht] at h

theorem nth_nil (i : Nat) : nth [] i = [] := rfl

theorem nth_setNth_self (l : List Cache) (i : Nat) (c : Cache)
    (h : i < l.length) : nth (setNth l i c) i = c := by
  induction l generalizing i with
  | nil => simp at h
  | cons a rest ih =>
    cases i with
    | zero => rfl
    | succ n => exact ih n (by simpa using h)

theorem nth_setNth_ne (l : List Cache) (i j : Nat) (c : Cache)
    (h : j ≠ i) : nth (setNth l i c) j = nth l j := by
  induction l generalizing i j with
  | nil => rfl
  | cons a rest ih =>
    cases i with
    | zero =>
      cases j with
      | zero => exact absurd rfl h
      | succ m => rfl
    | succ n =>
      cases j with
      | zero => rfl
      | succ m => exact ih n m (by simpa using h)

theorem nth_setNth_or (l : List Cache) (i j : Nat) (c : Cache) :
    nth (setNth l i c) j = nth l j ∨ nth (setNth l i c) j = c := by
  by_cases h : j = i
  · subst h
    by_cases hl : j < l.length
    · exact Or.inr (nth_setNth_self l j c hl)
    · left
      induction l generalizing j with
      | nil => rfl
      | cons a rest ih =>
        cases j with
        | zero => simp at hl
        | succ n => exact ih n (by simpa using hl)
  · exact Or.inl (nth_setNth_ne l i j c h)

theorem nth_append_length (l : List Cache) (c : Cache) :
    nth (l ++ [c]) l.length = c := by
  induction l with
  | nil => rfl
  | cons a rest ih => simpa [nth] using ih

theorem nth_append_lt (l : List Cache) (c : Cache) (i : Nat)
    (h : i < l.length) : nth (l ++ [c]) i = nth l i := by
  induction l generalizing i with
  | nil => simp at h
  | cons a rest ih =>
    cases i with
    | zero => rfl
    | succ n => exact ih n (by simpa using h)

theorem nth_append_or (l : List Cache) (c : Cache) (i : Nat) :
    nth (l ++ [c]) i = nth l i ∨ nth (l ++ [c]) i = c := by
  rcases Nat.lt_trichotomy i l.length with h | h | h
  · exact Or.inl (nth_append_lt l c i h)
  · subst h; exact Or.inr (nth_append_length l c)
  · left
    induction l generalizing i with
    | nil =>
      cases i with
      | zero => simp at h
      | succ n => rfl
    | cons a rest ih =>
      cases i with
      | zero => simp at h
      | succ n => exact ih n (by simpa using h)

/-! Shape of the state change performed by one resolution: either nothing,
or a bare fresh allocation (transient / scoped-on-container), or a guarded
insertion into the singleton cache, or a guarded insertion into one scope's
cache.  Every cache insertion happens only on a miss of the inserted key and
only for a key registered with the matching lifetime. -/

theorem resolveE_state_shape (e : Entry) (s : State) (t : Nat) :
    (resolveE e s t).state = s ∨
    (resolveE e s t).state = { s with next := s.next + 1 } ∨
    (∃ v info, lookupA s.singletons t = none ∧
       (lookupA s.service_info t = some info ∨
        lookupA s.scoped_service_info t = some info) ∧
       info.type_ = ServiceType.Singleton ∧
       (resolveE e s t).state =
         { s with next := s.next + 1,
                  singletons := insertA s.singletons t v }) ∨
    (∃ i v info, lookupA (getScope s i) t = none ∧
       lookupA s.scoped_service_info t = some info ∧
       info.type_ = ServiceType.Scoped ∧
       (resolveE e s t).state =
         { s with next := s.next + 1,
                  scopes := setNth s.scopes i
                    (insertA (getScope s i) t v) }) := by
  cases e with
  | cSync =>
    cases hi : lookupA s.service_info t with
    | none => left; simp [resolveE, collection_get_service_by_type_id, hi]
    | some info =>
      cases hty : info.type_ with
      | Singleton =>
        cases hv : lookupA s.singletons t with
        | some v =>
          left
          simp [resolveE, collection_get_service_by_type_id, hi, hty,
                get_singleton, hv]
        | none =>
          right; right; left
          refine ⟨⟨t, s.next⟩, info, rfl, Or.inl rfl, hty, ?_⟩
          simp [resolveE, collection_get_service_by_type_id, hi, hty,
                get_singleton, hv]
      | Scoped =>
        right; left
        simp [resolveE, collection_get_service_by_type_id, hi, hty]
      | Transient =>
        right; left
        simp [resolveE, collection_get_service_by_type_id, hi, hty]
  | cAsync =>
    cases hi : lookupA s.service_info t with
    | none =>
      left; simp [resolveE, collection_get_async_service_by_type_id, hi]
    | some info =>
      cases hty : info.type_ with
      | Singleton =>
        cases hv : lookupA s.singletons t with
        | some v =>
          left
          simp [resolveE, collection_get_async_service_by_type_id, hi, hty,
                get_singleton, hv]
        | none =>
          right; right; left
          refine ⟨⟨t, s.next⟩, info, rfl, Or.inl rfl, hty, ?_⟩
          simp [resolveE, collection_get_async_service_by_type_id, hi, hty,
                get_singleton, hv]
      | Scoped =>
        right; left
        cases hA : info.hasAsync <;>
          simp [resolveE, collection_get_async_service_by_type_id, hi, hty, hA]
      | Transient =>
        right; left
        cases hA : info.hasAsync <;>
          simp [resolveE, collection_get_async_service_by_type_id, hi, hty, hA]
  | sSync i =>
    cases hs : lookupA s.scoped_service_info t with
    | none => left; simp [resolveE, scope_get_service_by_type_id, hs]
    | some info =>
      cases hty : info.type_ with
      | Transient =>
        right; left
        simp [resolveE, scope_get_service_by_type_id, hs, hty,
              scope_get_service]
      | Singleton =>
        cases hv : lookupA s.singletons t with
        | some v =>
          left
          simp [resolveE, scope_get_service_by_type_id, hs, hty,
                scope_get_service, hv]
        | none =>
          right; right; left
          refine ⟨⟨t, s.next⟩, info, rfl, Or.inr rfl, hty, ?_⟩
          simp [resolveE, scope_get_service_by_type_id, hs, hty,
                scope_get_service, hv]
      | Scoped =>
        cases hv : lookupA (getScope s i) t with
        | some v =>
          left
          simp [resolveE, scope_get_service_by_type_id, hs, hty,
                scope_get_service, hv]
        | none =>
          right; right; right
          refine ⟨i, ⟨t, s.next⟩, info, hv, rfl, hty, ?_⟩
          simp [resolveE, scope_get_service_by_type_id, hs, hty,
                scope_get_service, hv]
  | sAsync i =>
    cases hs : lookupA s.scoped_service_info t with
    | none => left; simp [resolveE, scope_get_async_service_by_type_id, hs]
    | some info =>
      cases hty : info.type_ with
      | Transient =>
        right; left
        simp [resolveE, scope_get_async_service_by_type_id, hs, hty,
              scope_get_async_service]
      | Singleton =>
        cases hv : lookupA s.singletons t with
        | some v =>
          left
          simp [resolveE, scope_get_async_service_by_type_id, hs, hty,
                scope_get_async_service, hv]
        | none =>
          right; right; left
          refine ⟨⟨t, s.next⟩, info, rfl, Or.inr rfl, hty, ?_⟩
          simp [resolveE, scope_get_async_service_by_type_id, hs, hty,
                scope_get_async_service, hv]
      | Scoped =>
        cases hv : lookupA (getScope s i) t with
        | some v =>
          left
          simp [resolveE, scope_get_async_service_by_type_id, hs, hty,
                scope_get_async_service, hv]
        | none =>
          right; right; right
          refine ⟨i, ⟨t, s.next⟩, info, hv, rfl, hty, ?_⟩
          simp [resolveE, scope_get_async_service_by_type_id, hs, hty,
                scope_get_async_service, hv]

theorem resolveE_registry (e : Entry) (s : State) (t : Nat) :
    (resolveE e s t).state.service_info = s.service_info ∧
    (resolveE e s t).state.scoped_service_info = s.scoped_service_info := by
  rcases resolveE_state_shape e s t with
    h | h | ⟨v, info, -, -, -, h⟩ | ⟨i, v, info, -, -, -, h⟩ <;>
    rw [h] <;> exact ⟨rfl, rfl⟩

theorem applyOp_registry (s : State) (op : Op) :
    (applyOp s op).service_info = s.service_info ∧
    (applyOp s op).scoped_service_info = s.scoped_service_info := by
  cases op with
  | newScope => exact ⟨rfl, rfl⟩
  | resolve e t => exact resolveE_registry e s t

theorem run_registry (s : State) (ops : List Op) :
    (run s ops).service_info = s.service_info ∧
    (run s ops).scoped_service_info = s.scoped_service_info := by
  induction ops generalizing s with
  | nil => exact ⟨rfl, rfl⟩
  | cons op rest ih =>
    have h1 := applyOp_registry s op
    have h2 := ih (applyOp s op)
    exact ⟨h2.1.trans h1.1, h2.2.trans h1.2⟩

theorem applyOp_singletons_mono (s : State) (op : Op) (t : Nat) (v : Erased)
    (h : lookupA s.singletons t = some v) :
    lookupA (applyOp s op).singletons t = some v := by
  cases op with
  | newScope => exact h
  | resolve e u =>
    rcases resolveE_state_shape e s u with
      hs | hs | ⟨w, info, hmiss, -, -, hs⟩ | ⟨i, w, info, -, -, -, hs⟩
    · show lookupA (resolveE e s u).state.singletons t = some v
      rw [hs]; exact h
    · show lookupA (resolveE e s u).state.singletons t = some v
      rw [hs]; exact h
    · show lookupA (resolveE e s u).state.singletons t = some v
      rw [hs]
      have hne : t ≠ u := by
        intro e2; rw [e2, hmiss] at h; cases h
      show lookupA (insertA s.singletons u w) t = some v
      rw [lookupA_insertA_ne _ _ _ _ hne]; exact h
    · show lookupA (resolveE e s u).state.singletons t = some v
      rw [hs]; exact h

theorem run_singletons_mono (s : State) (ops : List Op) (t : Nat) (v : Erased)
    (h : lookupA s.singletons t = some v) :
    lookupA (run s ops).singletons t = some v := by
  induction ops generalizing s with
  | nil => exact h
  | cons op rest ih => exact ih _ (applyOp_singletons_mono s op t v h)

theorem applyOp_cachesOk (s : State) (op : Op)
    (hag : s.scoped_service_info = s.service_info)
    (h : cachesOk s) : cachesOk (applyOp s op) := by
  obtain ⟨hsing, hscope⟩ := h
  cases op with
  | newScope =>
    constructor
    · intro t ht
      exact hsing t ht
    · intro i t ht
      have he : getScope (applyOp s Op.newScope) i =
          nth (s.scopes ++ [[]]) i := rfl
      rw [he] at ht
      rcases nth_append_or s.scopes [] i with h2 | h2
      · exact hscope i t (by rwa [h2] at ht)
      · rw [h2] at ht; cases ht
  | resolve e u =>
    have hA : applyOp s (Op.resolve e u) = (resolveE e s u).state := rfl
    rcases resolveE_state_shape e s u with
      hs | hs | ⟨w, info, hmiss, hjust, hty, hs⟩ |
      ⟨i0, w, info, hmiss, hjust, hty, hs⟩
    · rw [hA, hs]; exact ⟨hsing, hscope⟩
    · rw [hA, hs]
      exact ⟨fun t ht => hsing t ht, fun i t ht => hscope i t ht⟩
    · rw [hA, hs]
      have hinfo : lookupA s.service_info u = some info := by
        rcases hjust with hj | hj
        · exact hj
        · rw [← hag]; exact hj
      have hnotr : ¬ transientKey s u := by
        rintro ⟨info2, hl2, hty2⟩
        rw [hinfo] at hl2
        cases hl2
        rw [hty] at hty2
        cases hty2
      constructor
      · intro t ht
        have ht2 : (lookupA (insertA s.singletons u w) t).isSome = true := ht
        rcases lookupA_insertA_isSome _ _ _ _ ht2 with rfl | hold
        · exact hnotr
        · exact hsing t hold
      · intro i t ht
        exact hscope i t ht
    · rw [hA, hs]
      have hinfo : lookupA s.service_info u = some info := by
        rw [← hag]; exact hjust
      have hnotr : ¬ transientKey s u := by
        rintro ⟨info2, hl2, hty2⟩
        rw [hinfo] at hl2
        cases hl2
        rw [hty] at hty2
        cases hty2
      constructor
      · intro t ht
        exact hsing t ht
      · intro i t ht
        have he : getScope
            { s with next := s.next + 1,
                     scopes := setNth s.scopes i0
                       (insertA (getScope s i0) u w) } i =
            nth (setNth s.scopes i0 (insertA (getScope s i0) u w)) i := rfl
        rw [he] at ht
        rcases nth_setNth_or s.scopes i0 i (insertA (getScope s i0) u w)
          with h2 | h2
        · exact hscope i t (by rwa [h2] at ht)
        · rw [h2] at ht
          rcases lookupA_insertA_isSome _ _ _ _ ht with rfl | hold
          · exact hnotr
          · exact hscope i0 t hold

theorem run_cachesOk (s : State) (ops : List Op)
    (hag : s.scoped_service_info = s.service_info)
    (h : cachesOk s) : cachesOk (run s ops) := by
  induction ops generalizing s with
  | nil => exact h
  | cons op rest ih =>
    have hreg := applyOp_registry s op
    exact ih (applyOp s op) (hreg.2.trans (hag.trans hreg.1.symm))
      (applyOp_cachesOk s op hag h)

theorem cachesOk_build (b : ServiceCollectionBuilder) : cachesOk (build b) := by
  constructor
  · intro t ht
    cases ht
  · intro i t ht
    have he : getScope (build b) i = [] := by
      show nth [] i = []
      exact nth_nil i
    rw [he] at ht
    cases ht

/-! Singleton resolution: hit behaviour and establishment of the cache
entry. -/

theorem resolveE_singleton_hit (e : Entry) (s : State) (t : Nat)
    (infoC infoS : ServiceInformation) (v : Erased)
    (h1 : lookupA s.service_info t = some infoC)
    (h2 : infoC.type_ = ServiceType.Singleton)
    (h3 : lookupA s.scoped_service_info t = some infoS)
    (h4 : infoS.type_ = ServiceType.Singleton)
    (hv : lookupA s.singletons t = some v) :
    resolveE e s t = ⟨some v, s, []⟩ := by
  cases e with
  | cSync =>
    simp [resolveE, collection_get_service_by_type_id, h1, h2,
          get_singleton, hv]
  | cAsync =>
    simp [resolveE, collection_get_async_service_by_type_id, h1, h2,
          get_singleton, hv]
  | sSync i =>
    simp [resolveE, scope_get_service_by_type_id, h3, h4,
          scope_get_service, hv]
  | sAsync i =>
    simp [resolveE, scope_get_async_service_by_type_id, h3, h4,
          scope_get_async_service, hv]

theorem resolveE_singleton_establish (e : Entry) (s : State) (t : Nat)
    (infoC infoS : ServiceInformation) (v : Erased)
    (h1 : lookupA s.service_info t = some infoC)
    (h2 : infoC.type_ = ServiceType.Singleton)
    (h3 : lookupA s.scoped_service_info t = some infoS)
    (h4 : infoS.type_ = ServiceType.Singleton)
    (h5 : (resolveE e s t).res = some v) :
    lookupA (resolveE e s t).state.singletons t = some v := by
  cases hv : lookupA s.singletons t with
  | some w =>
    rw [resolveE_singleton_hit e s t infoC infoS w h1 h2 h3 h4 hv] at h5 ⊢
    have hw : w = v := Option.some.inj h5
    show lookupA s.singletons t = some v
    rw [← hw]
    exact hv
  | none =>
    cases e with
    | cSync =>
      simp [resolveE, collection_get_service_by_type_id, h1, h2,
            get_singleton, hv] at h5 ⊢
      rw [lookupA_insertA_self]
      rw [← h5]
    | cAsync =>
      simp [resolveE, collection_get_async_service_by_type_id, h1, h2,
            get_singleton, hv] at h5 ⊢
      rw [lookupA_insertA_self]
      rw [← h5]
    | sSync i =>
      simp [resolveE, scope_get_service_by_type_id, h3, h4,
            scope_get_service, hv] at h5 ⊢
      rw [lookupA_insertA_self]
      rw [← h5]
    | sAsync i =>
      simp [resolveE, scope_get_async_service_by_type_id, h3, h4,
            scope_get_async_service, hv] at h5 ⊢
      rw [lookupA_insertA_self]
      rw [← h5]

/-- C2: for a type key registered with Singleton lifetime (in both registry
maps, as the builder always produces), once one resolution through any entry
point has returned an instance, every later resolution — through the
container or any scope, sync or async, after any interleaving of further
resolutions and scope creations — returns that same underlying instance, and
the typed get_required_service entry points return a handle to it. -/
theorem C2_singleton_unique_instance (s : State) (t : Nat)
    (infoC infoS : ServiceInformation) (v : Erased) (e : Entry)
    (ops : List Op)
    (h1 : lookupA s.service_info t = some infoC)
    (h2 : infoC.type_ = ServiceType.Singleton)
    (h3 : lookupA s.scoped_service_info t = some infoS)
    (h4 : infoS.type_ = ServiceType.Singleton)
    (h5 : (resolveE e s t).res = some v) :
    (∀ e2, (resolveE e2 (run (resolveE e s t).state ops) t).res = some v) ∧
    (v.tid = t →
      (collection_get_required_service (run (resolveE e s t).state ops) t).res
          = PanicOr.ok v.inst ∧
      ∀ i, (scope_get_required_service
          (run (resolveE e s t).state ops) i t).res = PanicOr.ok v.inst) := by
  have hest := resolveE_singleton_establish e s t infoC infoS v h1 h2 h3 h4 h5
  have hmono : lookupA (run (resolveE e s t).state ops).singletons t = some v :=
    run_singletons_mono _ ops t v hest
  have hr1 := resolveE_registry e s t
  have hr2 := run_registry (resolveE e s t).state ops
  have h1b : lookupA (run (resolveE e s t).state ops).service_info t
      = some infoC := by rw [hr2.1, hr1.1]; exact h1
  have h3b : lookupA (run (resolveE e s t).state ops).scoped_service_info t
      = some infoS := by rw [hr2.2, hr1.2]; exact h3
  constructor
  · intro e2
    rw [resolveE_singleton_hit e2 _ t infoC infoS v h1b h2 h3b h4 hmono]
  · intro htid
    constructor
    · simp [collection_get_required_service, collection_get_service,
            collection_get_service_by_type_id, h1b, h2, get_singleton, hmono,
            downcast, htid]
    · intro i
      simp [scope_get_required_service, scope_get_service_typed,
            scope_get_service_by_type_id, h3b, h4, scope_get_service, hmono,
            downcast, htid]

theorem C2_singleton_unique_instance_witness :
    lookupA (build (add_singleton emptyBuilder 0)).service_info 0
        = some ⟨ServiceType.Singleton, false⟩ ∧
    (resolveE Entry.cSync (build (add_singleton emptyBuilder 0)) 0).res
        = some ⟨0, 0⟩ ∧
    ((∀ e2, (resolveE e2
        (run (resolveE Entry.cSync (build (add_singleton emptyBuilder 0)) 0).state
          [Op.newScope]) 0).res = some ⟨0, 0⟩) ∧
     ((⟨0, 0⟩ : Erased).tid = 0 →
       (collection_get_required_service
           (run (resolveE Entry.cSync (build (add_singleton emptyBuilder 0)) 0).state
             [Op.newScope]) 0).res = PanicOr.ok 0 ∧
       ∀ i, (scope_get_required_service
           (run (resolveE Entry.cSync (build (add_singleton emptyBuilder 0)) 0).state
             [Op.newScope]) i 0).res = PanicOr.ok 0)) :=
  ⟨by decide, by decide,
   C2_singleton_unique_instance (build (add_singleton emptyBuilder 0)) 0
     ⟨ServiceType.Singleton, false⟩ ⟨ServiceType.Singleton, false⟩ ⟨0, 0⟩
     Entry.cSync [Op.newScope] (by decide) rfl (by decide) rfl (by decide)⟩

/-! Scoped resolution on a scope: hit and miss behaviour. -/

theorem scope_scoped_hit (s : State) (i t : Nat)
    (info : ServiceInformation) (v : Erased)
    (h1 : lookupA s.scoped_service_info t = some info)
    (h2 : info.type_ = ServiceType.Scoped)
    (hm : lookupA (getScope s i) t = some v) :
    scope_get_service_by_type_id s i t = ⟨some v, s, []⟩ := by
  simp [scope_get_service_by_type_id, h1, h2, scope_get_service, hm]

theorem scope_scoped_miss (s : State) (i t : Nat)
    (info : ServiceInformation)
    (h1 : lookupA s.scoped_service_info t = some info)
    (h2 : info.type_ = ServiceType.Scoped)
    (hm : lookupA (getScope s i) t = none) :
    scope_get_service_by_type_id s i t =
      ⟨some ⟨t, s.next⟩,
       { s with next := s.next + 1,
                scopes := setNth s.scopes i
                  (insertA (getScope s i) t ⟨t, s.next⟩) },
       [(t, Adapter.syncPath)]⟩ := by
  simp [scope_get_service_by_type_id, h1, h2, scope_get_service, hm]

/-- C3: for a type key registered with Scoped lifetime and two different
scopes i and j neither of whose caches holds the key (as with two freshly
derived sibling scopes), the first resolution in scope i constructs a fresh
instance, a second resolution in scope i returns the identical instance and
leaves the state unchanged, and a resolution in scope j constructs a
distinct instance. -/
theorem C3_scoped_same_scope_same_sibling_distinct (s : State) (t : Nat)
    (info : ServiceInformation) (i j : Nat)
    (h1 : lookupA s.scoped_service_info t = some info)
    (h2 : info.type_ = ServiceType.Scoped)
    (hij : j ≠ i)
    (hi : i < s.scopes.length)
    (hmi : lookupA (getScope s i) t = none)
    (hmj : lookupA (getScope s j) t = none) :
    (scope_get_service_by_type_id s i t).res = some ⟨t, s.next⟩ ∧
    (scope_get_service_by_type_id
        (scope_get_service_by_type_id s i t).state i t).res
      = some ⟨t, s.next⟩ ∧
    (scope_get_service_by_type_id
        (scope_get_service_by_type_id s i t).state i t).state
      = (scope_get_service_by_type_id s i t).state ∧
    (scope_get_service_by_type_id
        (scope_get_service_by_type_id s i t).state j t).res
      = some ⟨t, s.next + 1⟩ ∧
    (⟨t, s.next + 1⟩ : Erased) ≠ (⟨t, s.next⟩ : Erased) := by
  have hr1 := scope_scoped_miss s i t info h1 h2 hmi
  rw [hr1]
  have hg2 : getScope
      { s with next := s.next + 1,
               scopes := setNth s.scopes i
                 (insertA (getScope s i) t ⟨t, s.next⟩) } i
      = insertA (getScope s i) t ⟨t, s.next⟩ := by
    show nth (setNth s.scopes i (insertA (getScope s i) t ⟨t, s.next⟩)) i = _
    rw [nth_setNth_self _ _ _ hi]
  have hg3 : getScope
      { s with next := s.next + 1,
               scopes := setNth s.scopes i
                 (insertA (getScope s i) t ⟨t, s.next⟩) } j
      = getScope s j := by
    show nth (setNth s.scopes i (insertA (getScope s i) t ⟨t, s.next⟩)) j = _
    rw [nth_setNth_ne _ _ _ _ hij]
    rfl
  have hr2 := scope_scoped_hit
    { s with next := s.next + 1,
             scopes := setNth s.scopes i
               (insertA (getScope s i) t ⟨t, s.next⟩) }
    i t info ⟨t, s.next⟩ h1 h2
    (by rw [hg2]; exact lookupA_insertA_self _ _ _)
  have hr3 := scope_scoped_miss
    { s with next := s.next + 1,
             scopes := setNth s.scopes i
               (insertA (getScope s i) t ⟨t, s.next⟩) }
    j t info h1 h2 (by rw [hg3]; exact hmj)
  refine ⟨rfl, ?_, ?_, ?_, by simp⟩
  · rw [hr2]
  · rw [hr2]
  · rw [hr3]

theorem C3_scoped_same_scope_same_sibling_distinct_witness :
    (lookupA (run (build (add_scoped emptyBuilder 0))
        [Op.newScope, Op.newScope]).scoped_service_info 0
      = some ⟨ServiceType.Scoped, false⟩) ∧
    ((scope_get_service_by_type_id
        (run (build (add_scoped emptyBuilder 0)) [Op.newScope, Op.newScope])
        0 0).res = some ⟨0, 0⟩ ∧
     (scope_get_service_by_type_id
        (scope_get_service_by_type_id
          (run (build (add_scoped emptyBuilder 0)) [Op.newScope, Op.newScope])
          0 0).state 0 0).res = some ⟨0, 0⟩ ∧
     (scope_get_service_by_type_id
        (scope_get_service_by_type_id
          (run (build (add_scoped emptyBuilder 0)) [Op.newScope, Op.newScope])
          0 0).state 0 0).state
       = (scope_get_service_by_type_id
          (run (build (add_scoped emptyBuilder 0)) [Op.newScope, Op.newScope])
          0 0).state ∧
     (scope_get_service_by_type_id
        (scope_get_service_by_type_id
          (run (build (add_scoped emptyBuilder 0)) [Op.newScope, Op.newScope])
          0 0).state 1 0).res = some ⟨0, 1⟩ ∧
     (⟨0, 1⟩ : Erased) ≠ (⟨0, 0⟩ : Erased)) :=
  ⟨by decide,
   C3_scoped_same_scope_same_sibling_distinct
     (run (build (add_scoped emptyBuilder 0)) [Op.newScope, Op.newScope])
     0 ⟨ServiceType.Scoped, false⟩ 0 1 (by decide) rfl (by decide) (by decide)
     (by decide) (by decide)⟩

/-- C4: for a type key registered with Transient lifetime, every resolution
through every entry point invokes the factory and returns a freshly
constructed instance while leaving both cache tiers untouched; two successive
resolutions return distinct instances; and along any sequence of operations
from a state whose caches respect the registry (as the freshly built
container does), a transient key never occurs as a key of the singleton cache
or of any scope cache. -/
theorem C4_transient_fresh_never_cached (s : State) (t : Nat)
    (info : ServiceInformation)
    (h1 : lookupA s.service_info t = some info)
    (h2 : lookupA s.scoped_service_info t = some info)
    (h3 : info.type_ = ServiceType.Transient) :
    collection_get_service_by_type_id s t =
      ⟨some ⟨t, s.next⟩, { s with next := s.next + 1 },
       [(t, Adapter.syncPath)]⟩ ∧
    collection_get_async_service_by_type_id s t =
      ⟨some ⟨t, s.next⟩, { s with next := s.next + 1 },
       [(t, if info.hasAsync then Adapter.asyncPath else Adapter.syncPath)]⟩ ∧
    (∀ i, scope_get_service_by_type_id s i t =
      ⟨some ⟨t, s.next⟩, { s with next := s.next + 1 },
       [(t, Adapter.syncPath)]⟩) ∧
    (∀ i, scope_get_async_service_by_type_id s i t =
      ⟨some ⟨t, s.next⟩, { s with next := s.next + 1 },
       [(t, Adapter.syncPath)]⟩) ∧
    (collection_get_service_by_type_id
        (collection_get_service_by_type_id s t).state t).res
      = some ⟨t, s.next + 1⟩ ∧
    (∀ ops, s.scoped_service_info = s.service_info → cachesOk s →
      lookupA (run s ops).singletons t = none ∧
      ∀ i, lookupA (getScope (run s ops) i) t = none) := by
  have hc1 : collection_get_service_by_type_id s t =
      ⟨some ⟨t, s.next⟩, { s with next := s.next + 1 },
       [(t, Adapter.syncPath)]⟩ := by
    simp [collection_get_service_by_type_id, h1, h3]
  refine ⟨hc1, ?_, ?_, ?_, ?_, ?_⟩
  · cases hA : info.hasAsync <;>
      simp [collection_get_async_service_by_type_id, h1, h3, hA]
  · intro i
    simp [scope_get_service_by_type_id, h2, h3, scope_get_service]
  · intro i
    simp [scope_get_async_service_by_type_id, h2, h3, scope_get_async_service]
  · rw [hc1]
    simp [collection_get_service_by_type_id, h1, h3]
  · intro ops hag hok
    have hrun := run_cachesOk s ops hag hok
    have hreg := run_registry s ops
    have htk : transientKey (run s ops) t :=
      ⟨info, by rw [hreg.1]; exact h1, h3⟩
    constructor
    · cases hv : lookupA (run s ops).singletons t with
      | none => rfl
      | some w => exact absurd htk (hrun.1 t (by rw [hv]; rfl))
    · intro i
      cases hv : lookupA (getScope (run s ops) i) t with
      | none => rfl
      | some w => exact absurd htk (hrun.2 i t (by rw [hv]; rfl))

theorem C4_transient_fresh_never_cached_witness :
    (lookupA (build (add_transient emptyBuilder 0)).service_info 0
      = some ⟨ServiceType.Transient, false⟩) ∧
    (collection_get_service_by_type_id
        (build (add_transient emptyBuilder 0)) 0).res = some ⟨0, 0⟩ ∧
    lookupA (State.singletons (run (build (add_transient emptyBuilder 0))
        [Op.newScope, Op.resolve (Entry.sSync 0) 0, Op.resolve Entry.cSync 0,
         Op.resolve Entry.cAsync 0, Op.resolve (Entry.sAsync 0) 0])) 0
      = none ∧
    lookupA (getScope (run (build (add_transient emptyBuilder 0))
        [Op.newScope, Op.resolve (Entry.sSync 0) 0, Op.resolve Entry.cSync 0,
         Op.resolve Entry.cAsync 0, Op.resolve (Entry.sAsync 0) 0]) 0)
        0 = none := by
  have h := C4_transient_fresh_never_cached
    (build (add_transient emptyBuilder 0)) 0
    ⟨ServiceType.Transient, false⟩ (by decide) (by decide) rfl
  have htr := h.2.2.2.2.2
    [Op.newScope, Op.resolve (Entry.sSync 0) 0, Op.resolve Entry.cSync 0,
     Op.resolve Entry.cAsync 0, Op.resolve (Entry.sAsync 0) 0]
    (by decide) (cachesOk_build (add_transient emptyBuilder 0))
  exact ⟨by decide, by rw [h.1]; rfl, htr.1, htr.2 0⟩

/-- C5: resolving a type key absent from both registry maps through the
non-fatal typed entry points returns the empty result with the state (both
cache tiers included) unchanged, while the fatal get_required_service entry
points panic, also leaving the state unchanged. -/
theorem C5_unregistered_none_or_panic (s : State) (t : Nat)
    (h1 : lookupA s.service_info t = none)
    (h2 : lookupA s.scoped_service_info t = none) :
    collection_get_service s t = ⟨none, s, []⟩ ∧
    collection_get_required_service s t = ⟨PanicOr.panicked, s, []⟩ ∧
    (∀ i, scope_get_service_typed s i t = ⟨none, s, []⟩) ∧
    (∀ i, scope_get_required_service s i t = ⟨PanicOr.panicked, s, []⟩) ∧
    collection_get_async_service_typed s t = ⟨none, s, []⟩ ∧
    (∀ i, scope_get_async_service_typed s i t = ⟨none, s, []⟩) := by
  refine ⟨?_, ?_, ?_, ?_, ?_, ?_⟩
  · simp [collection_get_service, collection_get_service_by_type_id, h1]
  · simp [collection_get_required_service, collection_get_service,
          collection_get_service_by_type_id, h1]
  · intro i
    simp [scope_get_service_typed, scope_get_service_by_type_id, h2]
  · intro i
    simp [scope_get_required_service, scope_get_service_typed,
          scope_get_service_by_type_id, h2]
  · simp [collection_get_async_service_typed,
          collection_get_async_service_by_type_id, h1]
  · intro i
    simp [scope_get_async_service_typed,
          scope_get_async_service_by_type_id, h2]

theorem C5_unregistered_none_or_panic_witness :
    lookupA (build emptyBuilder).service_info 3 = none ∧
    collection_get_service (build emptyBuilder) 3
      = ⟨none, build emptyBuilder, []⟩ ∧
    collection_get_required_service (build emptyBuilder) 3
      = ⟨PanicOr.panicked, build emptyBuilder, []⟩ :=
  ⟨by decide,
   (C5_unregistered_none_or_panic (build emptyBuilder) 3 rfl rfl).1,
   (C5_unregistered_none_or_panic (build emptyBuilder) 3 rfl rfl).2.1⟩

/-- C9: the registry maps frozen by build() are never modified: any sequence
of resolutions (sync or async, container or scope) and scope creations leaves
both registry maps of the state exactly as they were. -/
theorem C9_registry_immutable (s : State) (ops : List Op) :
    (run s ops).service_info = s.service_info ∧
    (run s ops).scoped_service_info = s.scoped_service_info :=
  run_registry s ops

/-- C10: resolving a Scoped-registered key directly on the container does not
fail and does not cache: sync and async resolution construct and return a
fresh instance, the state changes only by the allocation counter (neither the
singleton cache nor any scope cache is written), and a second resolution
returns another, distinct instance. -/
theorem C10_scoped_on_container_acts_transient (s : State) (t : Nat)
    (info : ServiceInformation)
    (h1 : lookupA s.service_info t = some info)
    (h2 : info.type_ = ServiceType.Scoped) :
    collection_get_service_by_type_id s t =
      ⟨some ⟨t, s.next⟩, { s with next := s.next + 1 },
       [(t, Adapter.syncPath)]⟩ ∧
    collection_get_async_service_by_type_id s t =
      ⟨some ⟨t, s.next⟩, { s with next := s.next + 1 },
       [(t, if info.hasAsync then Adapter.asyncPath else Adapter.syncPath)]⟩ ∧
    (collection_get_service_by_type_id
        (collection_get_service_by_type_id s t).state t).res
      = some ⟨t, s.next + 1⟩ := by
  have hc1 : collection_get_service_by_type_id s t =
      ⟨some ⟨t, s.next⟩, { s with next := s.next + 1 },
       [(t, Adapter.syncPath)]⟩ := by
    simp [collection_get_service_by_type_id, h1, h2]
  refine ⟨hc1, ?_, ?_⟩
  · cases hA : info.hasAsync <;>
      simp [collection_get_async_service_by_type_id, h1, h2, hA]
  · rw [hc1]
    simp [collection_get_service_by_type_id, h1, h2]

theorem C10_scoped_on_container_acts_transient_witness :
    lookupA (build (add_scoped emptyBuilder 0)).service_info 0
      = some ⟨ServiceType.Scoped, false⟩ ∧
    (collection_get_service_by_type_id (build (add_scoped emptyBuilder 0)) 0
      = ⟨some ⟨0, 0⟩, { build (add_scoped emptyBuilder 0) with next := 1 },
         [(0, Adapter.syncPath)]⟩ ∧
     collection_get_async_service_by_type_id
        (build (add_scoped emptyBuilder 0)) 0
      = ⟨some ⟨0, 0⟩, { build (add_scoped emptyBuilder 0) with next := 1 },
         [(0, if (⟨ServiceType.Scoped, false⟩ : ServiceInformation).hasAsync
              then Adapter.asyncPath else Adapter.syncPath)]⟩ ∧
     (collection_get_service_by_type_id
        (collection_get_service_by_type_id
          (build (add_scoped emptyBuilder 0)) 0).state 0).res
       = some ⟨0, 1⟩) :=
  ⟨by decide,
   C10_scoped_on_container_acts_transient (build (add_scoped emptyBuilder 0))
     0 ⟨ServiceType.Scoped, false⟩ (by decide) rfl⟩

theorem get_singleton_isSome (s : State) (t : Nat)
    (info : ServiceInformation)
    (hC : lookupA s.service_info t = some info) :
    (get_singleton s t).res.isSome = true := by
  cases hv : lookupA s.singletons t with
  | some v => simp [get_singleton, hv]
  | none => simp [get_singleton, hv, hC]

/-- C7: for a key registered through add_async_service, resolution through
the synchronous path succeeds and returns and caches exactly the instance and
state the asynchronous path would produce from the same state, in both
resolver contexts: the synchronous entry is an adapter over the same
construction, differing only in which closure wrapper runs. -/
theorem C7_sync_adapter_equals_async (s : State) (t : Nat)
    (info : ServiceInformation)
    (hC : lookupA s.service_info t = some info)
    (hS : lookupA s.scoped_service_info t = some info)
    (hA : info.hasAsync = true) :
    ((collection_get_service_by_type_id s t).res
        = (collection_get_async_service_by_type_id s t).res ∧
     (collection_get_service_by_type_id s t).state
        = (collection_get_async_service_by_type_id s t).state ∧
     (collection_get_service_by_type_id s t).res.isSome = true) ∧
    ∀ i, (scope_get_service_by_type_id s i t).res
        = (scope_get_async_service_by_type_id s i t).res ∧
      (scope_get_service_by_type_id s i t).state
        = (scope_get_async_service_by_type_id s i t).state ∧
      (scope_get_service_by_type_id s i t).res.isSome = true := by
  cases hty : info.type_ with
  | Singleton =>
    refine ⟨⟨?_, ?_, ?_⟩, ?_⟩
    · simp [collection_get_service_by_type_id,
            collection_get_async_service_by_type_id, hC, hty]
    · simp [collection_get_service_by_type_id,
            collection_get_async_service_by_type_id, hC, hty]
    · simp only [collection_get_service_by_type_id, hC, hty]
      exact get_singleton_isSome s t info hC
    · intro i
      cases hv : lookupA s.singletons t with
      | some v =>
        refine ⟨?_, ?_, ?_⟩ <;>
          simp [scope_get_service_by_type_id,
                scope_get_async_service_by_type_id, hS, hty,
                scope_get_service, scope_get_async_service, hv]
      | none =>
        refine ⟨?_, ?_, ?_⟩ <;>
          simp [scope_get_service_by_type_id,
                scope_get_async_service_by_type_id, hS, hty,
                scope_get_service, scope_get_async_service, hv, hA]
  | Scoped =>
    refine ⟨⟨?_, ?_, ?_⟩, ?_⟩
    · simp [collection_get_service_by_type_id,
            collection_get_async_service_by_type_id, hC, hty, hA]
    · simp [collection_get_service_by_type_id,
            collection_get_async_service_by_type_id, hC, hty, hA]
    · simp [collection_get_service_by_type_id, hC, hty]
    · intro i
      cases hv : lookupA (getScope s i) t with
      | some v =>
        refine ⟨?_, ?_, ?_⟩ <;>
          simp [scope_get_service_by_type_id,
                scope_get_async_service_by_type_id, hS, hty,
                scope_get_service, scope_get_async_service, hv]
      | none =>
        refine ⟨?_, ?_, ?_⟩ <;>
          simp [scope_get_service_by_type_id,
                scope_get_async_service_by_type_id, hS, hty,
                scope_get_service, scope_get_async_service, hv, hA]
  | Transient =>
    refine ⟨⟨?_, ?_, ?_⟩, ?_⟩
    · simp [collection_get_service_by_type_id,
            collection_get_async_service_by_type_id, hC, hty, hA]
    · simp [collection_get_service_by_type_id,
            collection_get_async_service_by_type_id, hC, hty, hA]
    · simp [collection_get_service_by_type_id, hC, hty]
    · intro i
      refine ⟨?_, ?_, ?_⟩ <;>
        simp [scope_get_service_by_type_id,
              scope_get_async_service_by_type_id, hS, hty,
              scope_get_service, scope_get_async_service]

theorem C7_sync_adapter_equals_async_witness :
    (collection_get_service_by_type_id
        (build (add_async_service emptyBuilder 0 ServiceType.Scoped)) 0).res
      = (collection_get_async_service_by_type_id
        (build (add_async_service emptyBuilder 0 ServiceType.Scoped)) 0).res := by
  have h := C7_sync_adapter_equals_async
    (build (add_async_service emptyBuilder 0 ServiceType.Scoped)) 0
    ⟨ServiceType.Scoped, true⟩ (by decide) (by decide) rfl
  exact h.1.1

/-- C6 counterexample: with an asynchronous Singleton registration, the
container's asynchronous entry point on a cache miss invokes the synchronous
blocking adapter (initialize_fn inside get_singleton), and with an
asynchronous Transient registration a scope's asynchronous entry point also
invokes initialize_fn — in both cases the log shows the synchronous closure,
refuting that the async path always invokes the async factory. -/
theorem C6_counterexample_async_uses_blocking_adapter :
    (collection_get_async_service_by_type_id
        (build (add_async_service emptyBuilder 0 ServiceType.Singleton)) 0).log
      = [(0, Adapter.syncPath)] ∧
    (scope_get_async_service_by_type_id
        (create_scope (build (add_async_service emptyBuilder 1
          ServiceType.Transient))).2 0 1).log
      = [(1, Adapter.syncPath)] ∧
    Adapter.syncPath ≠ Adapter.asyncPath :=
  ⟨by decide, by decide, by decide⟩

/-- C6 amended: the asynchronous entry points invoke the registered
asynchronous factory for Scoped and Transient keys on the container and for
Singleton and Scoped cache misses on a scope; but a Singleton cache miss on
the container and every Transient resolution on a scope invoke the
synchronous blocking adapter instead. -/
theorem C6_amended_async_adapter_choice (s : State) (t : Nat)
    (info : ServiceInformation)
    (hC : lookupA s.service_info t = some info)
    (hS : lookupA s.scoped_service_info t = some info)
    (hA : info.hasAsync = true) :
    (info.type_ ≠ ServiceType.Singleton →
      (collection_get_async_service_by_type_id s t).log
        = [(t, Adapter.asyncPath)]) ∧
    (info.type_ = ServiceType.Singleton → lookupA s.singletons t = none →
      (collection_get_async_service_by_type_id s t).log
        = [(t, Adapter.syncPath)]) ∧
    (∀ i, info.type_ = ServiceType.Singleton →
      lookupA s.singletons t = none →
      (scope_get_async_service_by_type_id s i t).log
        = [(t, Adapter.asyncPath)]) ∧
    (∀ i, info.type_ = ServiceType.Scoped →
      lookupA (getScope s i) t = none →
      (scope_get_async_service_by_type_id s i t).log
        = [(t, Adapter.asyncPath)]) ∧
    (∀ i, info.type_ = ServiceType.Transient →
      (scope_get_async_service_by_type_id s i t).log
        = [(t, Adapter.syncPath)]) := by
  refine ⟨?_, ?_, ?_, ?_, ?_⟩
  · intro hne
    cases hty : info.type_ with
    | Singleton => exact absurd hty hne
    | Scoped =>
      simp [collection_get_async_service_by_type_id, hC, hty, hA]
    | Transient =>
      simp [collection_get_async_service_by_type_id, hC, hty, hA]
  · intro hty hv
    simp [collection_get_async_service_by_type_id, hC, hty,
          get_singleton, hv]
  · intro i hty hv
    simp [scope_get_async_service_by_type_id, hS, hty,
          scope_get_async_service, hv, hA]
  · intro i hty hv
    simp [scope_get_async_service_by_type_id, hS, hty,
          scope_get_async_service, hv, hA]
  · intro i hty
    simp [scope_get_async_service_by_type_id, hS, hty,
          scope_get_async_service]

theorem C6_amended_async_adapter_choice_witness :
    (collection_get_async_service_by_type_id
        (build (add_async_service emptyBuilder 0 ServiceType.Scoped)) 0).log
      = [(0, Adapter.asyncPath)] := by
  have h := C6_amended_async_adapter_choice
    (build (add_async_service emptyBuilder 0 ServiceType.Scoped)) 0
    ⟨ServiceType.Scoped, true⟩ (by decide) (by decide) rfl
  exact h.1 (by decide)

/-- C8 counterexample: the asynchronous typed entry point returns a plain
optional value, and two different failure situations — a key with no
registration at all (ServiceNotFound) and a cached value whose stored type
id disagrees with the requested key (DowncastingFailed) — produce the very
same empty result none: the failure kinds are conflated into a single empty
result, and no CustomError value exists anywhere in the interface. -/
theorem C8_counterexample_async_failures_identical :
    (collection_get_async_service_typed (build emptyBuilder) 0).res = none ∧
    (collection_get_async_service_typed
        { service_info := [(0, ⟨ServiceType.Singleton, false⟩)],
          scoped_service_info := [(0, ⟨ServiceType.Singleton, false⟩)],
          next := 6, singletons := [(0, ⟨1, 5⟩)], scopes := [] } 0).res
      = none :=
  ⟨by decide, by decide⟩

/-- C8 amended: the asynchronous query entry points return a plain optional
handle whose only failure value is the empty result: a missing registration
yields none (with the state untouched) and a downcast mismatch also yields
none, conflating the failure kinds exactly as the synchronous get_service
does; the user-supplied asynchronous initializers of this code cannot fail,
so no wrapped custom failure is ever surfaced. -/
theorem C8_amended_async_failures_conflated (s : State) (t : Nat) :
    (lookupA s.service_info t = none →
      collection_get_async_service_typed s t = ⟨none, s, []⟩) ∧
    (∀ v info, lookupA s.service_info t = some info →
      info.type_ = ServiceType.Singleton →
      lookupA s.singletons t = some v → v.tid ≠ t →
      (collection_get_async_service_typed s t).res = none) ∧
    (∀ i, lookupA s.scoped_service_info t = none →
      scope_get_async_service_typed s i t = ⟨none, s, []⟩) := by
  refine ⟨?_, ?_, ?_⟩
  · intro h
    simp [collection_get_async_service_typed,
          collection_get_async_service_by_type_id, h]
  · intro v info h1 hty hv htid
    simp [collection_get_async_service_typed,
          collection_get_async_service_by_type_id, h1, hty,
          get_singleton, hv, downcast, htid]
  · intro i h
    simp [scope_get_async_service_typed,
          scope_get_async_service_by_type_id, h]

theorem C8_amended_async_failures_conflated_witness :
    (collection_get_async_service_typed (build emptyBuilder) 0).res = none := by
  have h := C8_amended_async_failures_conflated (build emptyBuilder) 0
  rw [h.1 rfl]

/-- C1: calling create_scope() on an already-derived ServiceScope does not
return any scope at all: the method body is todo!, so it panics on every
call. -/
theorem C1_scope_create_scope_panics (s : State) (i : Nat) :
    scope_create_scope s i = PanicOr.panicked := rfl

end Deppy
